import Mathlib

/-!
A shallow embedding of the `pyiceberg.io` slice of the repository:
the location parsing routine `parse_location` (built on Python's
`urllib.parse.urlparse`), the scheme-to-filesystem resolution methods
`fs_by_scheme` / `fs_by_uri` of the `FileIO` base class, and the backend
selector `load_file_io` together with its helper
`_py_io_impl_argument_parser` (embedded as `pyIoImplArgParse`).

Python strings are embedded as `List Char` inside the URL-splitting
routines (converted from `String` at the boundary), machine exceptions as
an explicit `Except` error channel, and `warnings.warn` calls as an
emitted list of warning values.  The model of `urlparse` follows CPython's
`urllib.parse.urlsplit`/`urlparse` for ASCII inputs: WHATWG leading
control/space stripping, tab/newline removal, scheme extraction, netloc
splitting with the IPv6 bracket check, fragment/query splitting and the
params split of `urlparse` guarded by `uses_params`; the NFKC netloc check
(which only fires on non-ASCII authorities) is not modelled.
-/

set_option autoImplicit false

namespace PyIcebergIo

/-- Python exceptions that the modelled code can raise. -/
inductive PyExc where
  | typeError (msg : String)
  | valueError (msg : String)
deriving DecidableEq, Repr

/-! ## `urllib.parse` model -/

/-- CPython `scheme_chars`: ASCII letters, digits, `+`, `-`, `.`. -/
def schemeChar (c : Char) : Bool :=
  c.isAlpha || c.isDigit || c == '+' || c == '-' || c == '.'

/-- `url.lstrip(_WHATWG_C0_CONTROL_OR_SPACE)`: drop leading chars `≤ U+0020`. -/
def stripControlLeft (l : List Char) : List Char :=
  l.dropWhile (fun c => decide (c.toNat ≤ 0x20))

/-- Removal of `_UNSAFE_URL_BYTES_TO_REMOVE` (`\t`, `\r`, `\n`) everywhere. -/
def removeUnsafeBytes (l : List Char) : List Char :=
  l.filter (fun c => !(c == '\t' || c == '\r' || c == '\n'))

/-- Split at the first occurrence of `d`: `some (before, after)` with the
delimiter dropped, or `none` when `d` does not occur (models
`s.split(d, 1)` guarded by `d in s`). -/
def breakAt (d : Char) : List Char → Option (List Char × List Char)
  | [] => none
  | c :: rest =>
    if c == d then some ([], rest)
    else
      match breakAt d rest with
      | some (pre, post) => some (c :: pre, post)
      | none => none

/-- Scheme extraction of `urlsplit`: the text before the first `:` is a
scheme when it is nonempty, starts with an ASCII letter and consists of
scheme characters only; it is lowercased.  Returns `none` when the url
keeps no scheme. -/
def splitScheme : List Char → Option (List Char × List Char)
  | [] => none
  | c0 :: rest =>
    match breakAt ':' (c0 :: rest) with
    | some (pre, post) =>
      if pre ≠ [] && c0.isAlpha && pre.all schemeChar then
        some (pre.map Char.toLower, post)
      else none
    | none => none

/-- `_splitnetloc(url, 2)` applied when the url starts with `//`: the netloc
runs until the first `/`, `?` or `#`; the remainder (delimiter kept) stays
in the url. -/
def splitNetloc (url : List Char) : List Char × List Char :=
  match url with
  | '/' :: '/' :: rest =>
    (rest.takeWhile (fun c => !(c == '/' || c == '?' || c == '#')),
     rest.dropWhile (fun c => !(c == '/' || c == '?' || c == '#')))
  | _ => ([], url)

/-- Result of `urllib.parse.urlsplit`. -/
structure SplitResult where
  scheme : List Char
  netloc : List Char
  path : List Char
  query : List Char
  fragment : List Char
deriving DecidableEq, Repr

/-- CPython `urllib.parse.urlsplit` (ASCII fragment of it; `allow_fragments`
left at its default `True`).  Raises `ValueError` on an unbalanced IPv6
bracket in the netloc. -/
def urlsplit (url0 : List Char) : Except PyExc SplitResult :=
  let url1 := removeUnsafeBytes (stripControlLeft url0)
  let sp :=
    match splitScheme url1 with
    | some (s, rest) => (s, rest)
    | none => (([] : List Char), url1)
  let scheme := sp.1
  let nl := splitNetloc sp.2
  let netloc := nl.1
  if (netloc.contains '[' && !(netloc.contains ']')) ||
     (netloc.contains ']' && !(netloc.contains '[')) then
    .error (.valueError "Invalid IPv6 URL")
  else
    let fr :=
      match breakAt '#' nl.2 with
      | some (u, f) => (u, f)
      | none => (nl.2, ([] : List Char))
    let qu :=
      match breakAt '?' fr.1 with
      | some (u, q) => (u, q)
      | none => (fr.1, ([] : List Char))
    .ok ⟨scheme, netloc, qu.1, qu.2, fr.2⟩

/-- `(prefix up to and including the last '/', final segment)`; when the list
has no `'/'` the whole list is the segment. -/
def lastSeg (url : List Char) : List Char × List Char :=
  ((url.reverse.dropWhile (fun c => !(c == '/'))).reverse,
   (url.reverse.takeWhile (fun c => !(c == '/'))).reverse)

/-- CPython `_splitparams`: the `;params` suffix is split off the last path
segment only (`url[:i], url[i+1:]`, the `;` itself dropped); when the last
segment has no `;` the url is returned whole with empty params. -/
def splitparams (url : List Char) : List Char × List Char :=
  let ps := if url.contains '/' then lastSeg url else (([] : List Char), url)
  match breakAt ';' ps.2 with
  | some (a, b) => (ps.1 ++ a, b)
  | none => (url, [])

/-- CPython `uses_params`: the schemes whose paths carry `;params`;
`urlparse` splits params only for these. -/
def uses_params : List (List Char) :=
  ["", "ftp", "hdl", "prospero", "http", "imap", "https", "shttp", "rtsp",
   "rtspu", "sip", "sips", "mms", "sftp", "tel"].map String.toList

/-- Result of `urllib.parse.urlparse`. -/
structure ParseResult where
  scheme : List Char
  netloc : List Char
  path : List Char
  params : List Char
  query : List Char
  fragment : List Char
deriving DecidableEq, Repr

/-- CPython `urllib.parse.urlparse`: `urlsplit` followed by the params
split, which runs only under the guard
`scheme in uses_params and ';' in url` — for any other scheme (`hdfs`,
`viewfs`, `s3`, `gs`, ...) the path keeps any `;suffix` and params stay
empty. -/
def pyUrlparse (url : List Char) : Except PyExc ParseResult :=
  match urlsplit url with
  | .error e => .error e
  | .ok r =>
    if uses_params.contains r.scheme && r.path.contains ';' then
      let pp := splitparams r.path
      .ok ⟨r.scheme, r.netloc, pp.1, pp.2, r.query, r.fragment⟩
    else
      .ok ⟨r.scheme, r.netloc, r.path, [], r.query, r.fragment⟩

/-! ## `parse_location` (src/pyiceberg/io/interface.py) -/

/-- `parse_location(uri)` from `interface.py`.  The source rebinds `uri` to
the `urlparse` result; in the no-scheme branch it then evaluates
`os.path.abspath(uri)` on that `ParseResult` object, and `os.fspath`
inside `abspath` raises `TypeError` because a `ParseResult` is neither a
string nor a path-like object — so every scheme-less input raises instead
of producing the documented `("file", netloc, abspath)` triple. -/
def parse_location (uri : String) : Except PyExc (String × String × String) :=
  match pyUrlparse uri.toList with
  | .error e => .error e
  | .ok r =>
    if r.scheme = [] then
      .error (.typeError "expected str, bytes or os.PathLike object, not ParseResult")
    else if r.scheme = "hdfs".toList ∨ r.scheme = "viewfs".toList then
      .ok (String.mk r.scheme, String.mk r.netloc, String.mk r.path)
    else
      .ok (String.mk r.scheme, String.mk r.netloc, String.mk (r.netloc ++ r.path))

/-! ## Scheme resolution on a `FileIO` instance (src/pyiceberg/io/interface.py)

`FileIO.fs_by_scheme` carries a `functools.cache` decorator: per instance,
the first call for a scheme constructs the client and stores it under that
scheme, later calls return the stored client.  The cache is embedded as an
association list from scheme to client threaded through the call; the
concrete client construction of a backend subclass is an arbitrary
function parameter, since those subclasses live outside this slice. -/

/-- `fs_by_scheme` under `functools.cache`: on a hit the cached client and
the unchanged cache are returned; on a miss `construct` runs once and the
result is recorded. -/
def fs_by_scheme {Client : Type} (construct : String → Client)
    (cache : List (String × Client)) (scheme : String) :
    Client × List (String × Client) :=
  match cache.lookup scheme with
  | some client => (client, cache)
  | none => (construct scheme, (scheme, construct scheme) :: cache)

/-- Modelled from the spec: `FileIO.fs_by_uri` reads
`scheme = self.parse_uri(uri)[0]` and returns `self.fs_by_scheme(scheme)`;
the `parse_uri` method itself is provided by backend subclasses that are
not part of this slice, and per the spec it "parses the URI then resolves
its scheme", i.e. it is the Location Parser `parse_location`. -/
def fs_by_uri {Client : Type} (construct : String → Client)
    (cache : List (String × Client)) (uri : String) :
    Except PyExc (Client × List (String × Client)) :=
  match parse_location uri with
  | .ok (scheme, _, _) => .ok (fs_by_scheme construct cache scheme)
  | .error e => .error e

/-! ## Backend selection (src/pyiceberg/io/__init__.py) -/

/-- Configuration constant `FSSPEC`. -/
def FSSPEC : String := "fsspec"

/-- Configuration constant `PYARROW`. -/
def PYARROW : String := "pyarrow"

/-- Configuration constant `ARROW_FILE_IO` of `__init__.py`: the deprecated
fully-qualified spelling of the pyarrow backend. -/
def ARROW_IMPL_FQN : String := "pyiceberg.io.pyarrow.PyArrowFileIO"

/-- Configuration constant `FSSPEC_FILE_IO` of `__init__.py`: the deprecated
fully-qualified spelling of the fsspec backend. -/
def FSSPEC_IMPL_FQN : String := "pyiceberg.io.fsspec.FsspecFileIO"

/-- Configuration key `PY_IO_IMPL`. -/
def PY_IO_IMPL : String := "py-io-impl"

/-- Configuration constant `DEFAULT_PY_IO_IMPL`. -/
def DEFAULT_PY_IO_IMPL : String := PYARROW

/-- The two concrete backend classes the selector can construct. -/
inductive BackendKind where
  | pyarrow
  | fsspec
deriving DecidableEq, Repr

/-- The other backend. -/
def alternate : BackendKind → BackendKind
  | .pyarrow => .fsspec
  | .fsspec => .pyarrow

/-- The `warnings.warn` calls the selector can emit. -/
inductive PyWarning where
  | deprecatedFsspecImpl
  | deprecatedArrowImpl
  | fallbackFrom (primary : BackendKind) (location : String)
deriving DecidableEq, Repr

/-- Whether a warning is the fallback warning of `load_file_io`. -/
def isFallbackWarn : PyWarning → Bool
  | .fallbackFrom _ _ => true
  | _ => false

/-- `_py_io_impl_argument_parser` from `__init__.py`, with its warnings made
explicit.  The final branch of the source evaluates
`ValueError(f"Unknown value ...")` without a `raise` statement, so the
expression's result is discarded and the function falls through, returning
Python `None` (embedded as `none`) and raising nothing. -/
def pyIoImplArgParse (py_io_impl : String) : Option String × List PyWarning :=
  if py_io_impl = FSSPEC ∨ py_io_impl = PYARROW then
    (some py_io_impl, [])
  else if py_io_impl = FSSPEC_IMPL_FQN then
    (some FSSPEC, [.deprecatedFsspecImpl])
  else if py_io_impl = ARROW_IMPL_FQN then
    (some PYARROW, [.deprecatedArrowImpl])
  else
    (none, [])

/-- `load_file_io` from `__init__.py`.  `properties` is the configuration
bag (`dict.get` embedded as association-list lookup with default) and
`location` the optional target location; `probe backend loc = false`
embeds `backend_instance.fs_by_uri(loc) is None`, the compatibility probe
whose concrete behaviour lives in the backend subclasses outside this
slice.  `if location and ...` uses Python truthiness: `None` and the empty
string both skip the probe.  The result is the constructed backend plus
the warnings emitted along the way. -/
def load_file_io (probe : BackendKind → String → Bool)
    (properties : List (String × String)) (location : Option String) :
    BackendKind × List PyWarning :=
  let pr := pyIoImplArgParse ((properties.lookup PY_IO_IMPL).getD DEFAULT_PY_IO_IMPL)
  if pr.1 = some PYARROW then
    match location with
    | some loc =>
      if loc ≠ "" ∧ probe .pyarrow loc = false then
        (.fsspec, pr.2 ++ [.fallbackFrom .pyarrow loc])
      else (.pyarrow, pr.2)
    | none => (.pyarrow, pr.2)
  else
    match location with
    | some loc =>
      if loc ≠ "" ∧ probe .fsspec loc = false then
        (.pyarrow, pr.2 ++ [.fallbackFrom .fsspec loc])
      else (.fsspec, pr.2)
    | none => (.fsspec, pr.2)

/-- The backend `load_file_io` initially selects from the configuration bag
alone, before any location probe. -/
def selected_impl (properties : List (String × String)) : BackendKind :=
  if (pyIoImplArgParse ((properties.lookup PY_IO_IMPL).getD DEFAULT_PY_IO_IMPL)).1
      = some PYARROW then
    .pyarrow
  else
    .fsspec

/-! ## Helper lemmas -/

/-- `_py_io_impl_argument_parser` emits deprecation warnings only, never a
fallback warning. -/
theorem pyIoImplArgParse_no_fallback (v : String) :
    ((pyIoImplArgParse v).2.countP isFallbackWarn) = 0 := by
  unfold pyIoImplArgParse
  split
  · rfl
  · split
    · rfl
    · split <;> rfl

/-! ## Claim theorems -/

/-- C1: the claim says an unrecognized `py-io-impl` value makes backend
selection raise a `ValueError`.  The code instead builds the `ValueError`
without raising it: the helper returns `None` and `load_file_io`'s else
branch silently constructs the fsspec backend, with no warning and no
error, as this evaluation at the failing configuration shows. -/
theorem unrecognized_impl_returns_fsspec (probe : BackendKind → String → Bool) :
    pyIoImplArgParse "bogus-impl" = (none, [])
  ∧ load_file_io probe [(PY_IO_IMPL, "bogus-impl")] none = (.fsspec, []) :=
  ⟨rfl, rfl⟩

/-- C2: the claim says a scheme-less location yields
`("file", "", abspath(input))`.  The code instead raises `TypeError` on
every scheme-less input, because `os.path.abspath` is applied to the
`urlparse` result object after the input string was shadowed; this
evaluation at a concrete scheme-less input shows the raise. -/
theorem parse_location_schemeless_raises :
    parse_location "relative/path.txt"
      = .error (.typeError "expected str, bytes or os.PathLike object, not ParseResult") :=
  rfl

/-- C3: `fs_by_uri` returns exactly the filesystem obtained by parsing the
URI and resolving the first component of the parse with `fs_by_scheme`,
on the same instance and cache. -/
theorem fs_by_uri_resolves_parsed_scheme {Client : Type} (construct : String → Client)
    (cache : List (String × Client)) (uri scheme authority path : String)
    (h : parse_location uri = .ok (scheme, authority, path)) :
    fs_by_uri construct cache uri = .ok (fs_by_scheme construct cache scheme) := by
  simp only [fs_by_uri, h]

/-- Witness for C3 at `"s3://bucket/key"`, whose parsed scheme is `"s3"`. -/
theorem fs_by_uri_resolves_parsed_scheme_witness :
    fs_by_uri (fun s => s) ([] : List (String × String)) "s3://bucket/key"
      = .ok (fs_by_scheme (fun s => s) [] "s3") :=
  fs_by_uri_resolves_parsed_scheme (fun s => s) [] "s3://bucket/key" "s3" "bucket" "bucket/key" rfl

/-- C4: whenever a truthy location is supplied and the initially selected
backend's probe reports the location unsupported, `load_file_io` returns
the alternate backend with the parser warnings followed by exactly one
fallback warning; the probe value on the alternate backend is not
consulted (it is universally quantified here), so the alternate is
returned without exception even when it cannot serve the scheme either. -/
theorem load_file_io_fallback (probe : BackendKind → String → Bool)
    (properties : List (String × String)) (loc : String)
    (htruthy : loc ≠ "")
    (hunsupported : probe (selected_impl properties) loc = false) :
    load_file_io probe properties (some loc)
      = (alternate (selected_impl properties),
         (pyIoImplArgParse ((properties.lookup PY_IO_IMPL).getD DEFAULT_PY_IO_IMPL)).2
           ++ [.fallbackFrom (selected_impl properties) loc])
  ∧ ((load_file_io probe properties (some loc)).2.countP isFallbackWarn) = 1 := by
  have key : load_file_io probe properties (some loc)
      = (alternate (selected_impl properties),
         (pyIoImplArgParse ((properties.lookup PY_IO_IMPL).getD DEFAULT_PY_IO_IMPL)).2
           ++ [.fallbackFrom (selected_impl properties) loc]) := by
    unfold selected_impl at hunsupported ⊢
    by_cases hp :
        (pyIoImplArgParse ((properties.lookup PY_IO_IMPL).getD DEFAULT_PY_IO_IMPL)).1
          = some PYARROW
    · rw [if_pos hp] at hunsupported ⊢
      simp [load_file_io, hp, htruthy, hunsupported, alternate]
    · rw [if_neg hp] at hunsupported ⊢
      simp [load_file_io, hp, htruthy, hunsupported, alternate]
  refine ⟨key, ?_⟩
  rw [key]
  simp [List.countP_append, List.countP_cons, isFallbackWarn, pyIoImplArgParse_no_fallback]

/-- Witness for C4: empty configuration selects pyarrow; a probe rejecting
every scheme (so the alternate cannot serve the location either) still
yields the fsspec backend with exactly one fallback warning. -/
theorem load_file_io_fallback_witness :
    load_file_io (fun _ _ => false) [] (some "abfs://c/p")
      = (alternate (selected_impl []),
         (pyIoImplArgParse (((List.nil : List (String × String)).lookup PY_IO_IMPL).getD
             DEFAULT_PY_IO_IMPL)).2
           ++ [.fallbackFrom (selected_impl []) "abfs://c/p"])
  ∧ ((load_file_io (fun _ _ => false) [] (some "abfs://c/p")).2.countP isFallbackWarn) = 1 :=
  load_file_io_fallback (fun _ _ => false) [] "abfs://c/p" (by decide) rfl

/-- C5: the claim says `parse_location` is total and never raises.  It does
raise: this evaluation at a concrete absolute local path (which has no
URI scheme) shows the `TypeError` coming from `os.path.abspath` being
applied to the `urlparse` result object. -/
theorem parse_location_not_total :
    parse_location "/tmp/data.parquet"
      = .error (.typeError "expected str, bytes or os.PathLike object, not ParseResult") :=
  rfl

/-- C6: for a location whose parsed scheme is `hdfs` or `viewfs`,
`parse_location` returns the URI's path component verbatim, with the
authority kept in the separate second component. -/
theorem parse_location_dfs_path_verbatim (uri : String) (r : ParseResult)
    (h : pyUrlparse uri.toList = .ok r)
    (hs : r.scheme = "hdfs".toList ∨ r.scheme = "viewfs".toList) :
    parse_location uri = .ok (String.mk r.scheme, String.mk r.netloc, String.mk r.path) := by
  have h0 : ¬ r.scheme = [] := by
    rcases hs with h1 | h1 <;> simp [h1]
  simp only [parse_location, h]
  rw [if_neg h0, if_pos hs]

/-- Witness for C6 at an hdfs location whose path carries a `;`: `hdfs` is
not in `uses_params`, so the path — semicolon suffix included — is
returned verbatim with the authority separate. -/
theorem parse_location_dfs_path_verbatim_witness :
    parse_location "hdfs://nn/a;b" = .ok ("hdfs", "nn", "/a;b") :=
  parse_location_dfs_path_verbatim "hdfs://nn/a;b"
    ⟨"hdfs".toList, "nn".toList, "/a;b".toList, [], [], []⟩
    rfl (Or.inl rfl)

/-- C7: for a location with an explicit scheme other than `hdfs`/`viewfs`,
`parse_location`'s returned path is the concatenation of the URI's
authority and path components. -/
theorem parse_location_other_scheme_concat (uri : String) (r : ParseResult)
    (h : pyUrlparse uri.toList = .ok r)
    (h0 : r.scheme ≠ [])
    (h1 : ¬(r.scheme = "hdfs".toList ∨ r.scheme = "viewfs".toList)) :
    parse_location uri
      = .ok (String.mk r.scheme, String.mk r.netloc, String.mk (r.netloc ++ r.path)) := by
  simp only [parse_location, h]
  rw [if_neg h0, if_neg h1]

/-- Witness for C7 at an s3 location whose path carries a `;`: `s3` is not
in `uses_params`, so the authority is folded into the returned path and
the semicolon suffix is kept. -/
theorem parse_location_other_scheme_concat_witness :
    parse_location "s3://bucket/key;x" = .ok ("s3", "bucket", "bucket/key;x") :=
  parse_location_other_scheme_concat "s3://bucket/key;x"
    ⟨"s3".toList, "bucket".toList, "/key;x".toList, [], [], []⟩
    rfl (by decide) (by decide)

/-- C8: each deprecated fully-qualified `py-io-impl` spelling is normalized
to its canonical backend with exactly one deprecation warning, and
selection completes without error. -/
theorem deprecated_spellings_canonical (probe : BackendKind → String → Bool) :
    pyIoImplArgParse FSSPEC_IMPL_FQN = (some FSSPEC, [.deprecatedFsspecImpl])
  ∧ pyIoImplArgParse ARROW_IMPL_FQN = (some PYARROW, [.deprecatedArrowImpl])
  ∧ load_file_io probe [(PY_IO_IMPL, FSSPEC_IMPL_FQN)] none = (.fsspec, [.deprecatedFsspecImpl])
  ∧ load_file_io probe [(PY_IO_IMPL, ARROW_IMPL_FQN)] none = (.pyarrow, [.deprecatedArrowImpl]) :=
  ⟨rfl, rfl, rfl, rfl⟩

/-- C9: resolving the same scheme twice on the same instance returns the
memoized client of the first call and leaves the cache unchanged — no new
client is constructed by the second call. -/
theorem fs_by_scheme_memoized {Client : Type} (construct : String → Client)
    (cache : List (String × Client)) (scheme : String) :
    (fs_by_scheme construct (fs_by_scheme construct cache scheme).2 scheme).1
      = (fs_by_scheme construct cache scheme).1
  ∧ (fs_by_scheme construct (fs_by_scheme construct cache scheme).2 scheme).2
      = (fs_by_scheme construct cache scheme).2 := by
  cases h : cache.lookup scheme with
  | some client => simp [fs_by_scheme, h]
  | none => simp [fs_by_scheme, h, List.lookup]

/-- C10: an empty-string target location is falsy in Python, so
`load_file_io` skips the compatibility probe entirely and behaves exactly
as with no location — even probes that disagree on every input give the
same result. -/
theorem load_file_io_empty_location_as_none (p1 p2 : BackendKind → String → Bool)
    (properties : List (String × String)) :
    load_file_io p1 properties (some "") = load_file_io p2 properties none := by
  unfold load_file_io
  split <;> simp_all

end PyIcebergIo
